import Mathlib

set_option autoImplicit false

/-!
Verification development for the cortex repository's agent/provider/session
configuration pipeline.  TypeScript classes are embedded shallowly: each
manager becomes a state structure, each method a Lean function from state
(plus the environment inputs the method reads: the clock, fresh identifiers,
and the outcomes of external calls such as provider handshakes, model
invocations and persistence writes) to a result paired with the post state.
JavaScript Maps become association lists, `Date.now()` becomes an explicit
`now : Nat` argument, `crypto.randomUUID()` becomes a fresh counter carried
in the state, and methods that may throw return `Except String`.
-/

namespace Cortex

/-! ## Association-list maps (embedding of JavaScript `Map`)

JavaScript `Map` keys are unique; deletion of the unique occurrence of a key
is the same as filtering it out, so `mapDel` is written as a filter. `mapSet`
replaces in place, preserving insertion order, as `Map.set` does. -/

def mapGet {K V : Type} [DecidableEq K] : List (K × V) → K → Option V
  | [], _ => none
  | (k, v) :: rest, key => if k = key then some v else mapGet rest key

def mapSet {K V : Type} [DecidableEq K] : List (K × V) → K → V → List (K × V)
  | [], key, val => [(key, val)]
  | (k, v) :: rest, key, val =>
      if k = key then (key, val) :: rest else (k, v) :: mapSet rest key val

def mapDel {K V : Type} [DecidableEq K] (m : List (K × V)) (key : K) : List (K × V) :=
  m.filter (fun p => p.1 ≠ key)

theorem mapGet_mapDel_self {K V : Type} [DecidableEq K] (m : List (K × V)) (k : K) :
    mapGet (mapDel m k) k = none := by
  induction m with
  | nil => rfl
  | cons p rest ih =>
      cases p with
      | mk k0 v0 =>
        by_cases h : k0 = k
        · simpa [mapDel, List.filter_cons, ne_eq, decide_not, h] using ih
        · simp only [mapDel, List.filter_cons, ne_eq, decide_not] at ih ⊢
          simp [h, mapGet, ih]

theorem mem_mapSet {K V : Type} [DecidableEq K] {m : List (K × V)} {k : K} {v : V}
    {q : K × V} (h : q ∈ mapSet m k v) : q = (k, v) ∨ q ∈ m := by
  induction m with
  | nil => simpa [mapSet] using h
  | cons p rest ih =>
      cases p with
      | mk k0 v0 =>
        by_cases hk : k0 = k
        · simp only [mapSet, if_pos hk] at h
          rcases List.mem_cons.mp h with h1 | h1
          · exact Or.inl h1
          · exact Or.inr (List.mem_cons_of_mem _ h1)
        · simp only [mapSet, if_neg hk] at h
          rcases List.mem_cons.mp h with h1 | h1
          · exact Or.inr (by simp [h1])
          · rcases ih h1 with h2 | h2
            · exact Or.inl h2
            · exact Or.inr (List.mem_cons_of_mem _ h2)

theorem mapGet_mem {K V : Type} [DecidableEq K] {m : List (K × V)} {k : K} {v : V}
    (h : mapGet m k = some v) : (k, v) ∈ m := by
  induction m with
  | nil => simp [mapGet] at h
  | cons p rest ih =>
      cases p with
      | mk k0 v0 =>
        by_cases hk : k0 = k
        · simp only [mapGet, if_pos hk, Option.some.injEq] at h
          subst hk
          subst h
          exact List.mem_cons_self _ _
        · simp only [mapGet, if_neg hk] at h
          exact List.mem_cons_of_mem _ (ih h)

/-! ## Provider configuration and validation

From `src/types/provider.ts` (the type-keyed generation used by
`src/providers/provider-manager.ts`): a provider config has a type tag,
optional api key, optional base url, and an enabled flag.  Optional string
fields are `Option String`; JavaScript truthiness of a string field (missing
or empty both falsy) is `strTruthy`.  A missing `provider` field is `none`.
URL parsing (`new URL(...)` throwing or not) is abstracted as a parameter
`isValidUrl : String → Bool` since the host's URL parser is external. -/

inductive ModelProvider
  | OpenAI
  | OpenAICompatible
  | Ollama
deriving DecidableEq, Repr

structure ProviderConfig where
  provider : Option ModelProvider
  apiKey : Option String
  baseUrl : Option String
  enabled : Bool
deriving DecidableEq, Repr

def strTruthy (s : Option String) : Bool :=
  !(s.getD "" == "")

structure ValidationResult where
  valid : Bool
  errors : List String
deriving DecidableEq, Repr

/-- Embedding of `ProviderFactory.validateProviderConfig`
(`src/providers/provider-factory.ts` lines 33-79). -/
def validateProviderConfig (isValidUrl : String → Bool) (config : ProviderConfig) :
    ValidationResult :=
  let errors : List String :=
    if config.provider.isNone then ["Provider type is required"] else []
  if !config.enabled then
    { valid := true, errors := [] }
  else
    let errors := errors ++
      (match config.provider with
       | some .OpenAI =>
           if !strTruthy config.apiKey then ["OpenAI API key is required"] else []
       | some .OpenAICompatible =>
           if !strTruthy config.baseUrl then
             ["Base URL is required for OpenAI Compatible provider"] else []
       | some .Ollama =>
           if strTruthy config.baseUrl then
             if !isValidUrl (config.baseUrl.getD "") then
               ["Invalid base URL format for Ollama provider"] else []
           else []
       | none => ["Unknown provider: undefined"])
    { valid := errors.isEmpty, errors := errors }

/-! ## Provider manager (`src/providers/provider-manager.ts`)

A live connection (`IModelProvider` instance) is a `Conn`: the config it was
constructed from, a nonce `iid` making each constructed object distinct, and
whether `initialize()` has completed.  `BaseProvider.dispose` only resets a
flag on the discarded object and never throws, so disposal needs no further
modelling.  Whether `provider.initialize()` (a live handshake) succeeds is an
environment input `connectOk : Bool` of `addProvider`. -/

structure Conn where
  cfg : ProviderConfig
  iid : Nat
  inited : Bool
deriving DecidableEq, Repr

structure GlobalSettings where
  providers : List (ModelProvider × ProviderConfig)
  defaultProvider : Option ModelProvider
deriving DecidableEq, Repr

structure PMState where
  providers : List (ModelProvider × Conn)
  globalSettings : Option GlobalSettings
  defaultProvider : Option ModelProvider
  nextIid : Nat
deriving DecidableEq, Repr

/-- Embedding of `ProviderManager.getProvider` (lines 37-43): fall back to the
default provider when no type is passed; pure lookup. -/
def getProvider (st : PMState) (providerType : Option ModelProvider) : Option Conn :=
  let target := match providerType with
    | some p => some p
    | none => st.defaultProvider
  match target with
  | none => none
  | some p => mapGet st.providers p

/-- Embedding of `ProviderManager.getAvailableProviders` (lines 48-50). -/
def getAvailableProviders (st : PMState) : List ModelProvider :=
  st.providers.map (fun p => p.1)

/-- Embedding of `ProviderManager.removeProvider` (lines 81-100).  A `none`
key (JavaScript `undefined`) misses the map, deletes a never-present settings
key and never equals the non-null default, so it changes nothing. -/
def removeProvider (st : PMState) (key : Option ModelProvider) : PMState :=
  match key with
  | none => st
  | some p =>
      let st1 : PMState :=
        { st with
          providers := mapDel st.providers p,
          globalSettings := st.globalSettings.map
            (fun g => { g with providers := mapDel g.providers p }) }
      if st1.defaultProvider = some p then
        { st1 with
          defaultProvider := none,
          globalSettings := st1.globalSettings.map
            (fun g => { g with defaultProvider := none }) }
      else st1

/-- The trailing settings update of `addProvider` (lines 72-75).  With a
missing provider type JavaScript would store the config under the key
`"undefined"`, which no reader ever consults; modelled as a no-op. -/
def storeSettings (st : PMState) (config : ProviderConfig) : PMState :=
  match config.provider with
  | some p =>
      { st with
        globalSettings := st.globalSettings.map
          (fun g => { g with providers := mapSet g.providers p config }) }
  | none => st

/-- Embedding of `ProviderManager.addProvider` (lines 55-76).  The method can
throw; the state component of the result is the manager's state after the
call whether or not it threw, since the underlying maps are mutated in place
before the failure point.  `connectOk` is whether `provider.initialize()`
(the connectivity handshake) succeeds. -/
def addProvider (isValidUrl : String → Bool) (st : PMState) (config : ProviderConfig)
    (connectOk : Bool) : Except String Unit × PMState :=
  let validation := validateProviderConfig isValidUrl config
  if !validation.valid then
    (.error ("Invalid provider config: " ++ String.intercalate ", " validation.errors), st)
  else
    let st1 := removeProvider st config.provider
    if config.enabled then
      match config.provider with
      | none => (.error "Unsupported provider: undefined", st1)
      | some p =>
          if connectOk then
            let conn : Conn := { cfg := config, iid := st1.nextIid, inited := true }
            let st2 : PMState :=
              { st1 with
                providers := mapSet st1.providers p conn,
                nextIid := st1.nextIid + 1 }
            (.ok (), storeSettings st2 config)
          else
            (.error "Provider initialization failed", st1)
    else
      (.ok (), storeSettings st1 config)

/-! ## Storage manager vault model (`src/storage/storage-manager.ts`)

The Obsidian vault is a path-keyed map of entries; an entry is a file (with
its text) or a folder.  `deleteFile` (lines 113-129) looks the full path up,
deletes only when the entry is a file, and returns success otherwise; the
host delete call may throw, abstracted as `deleteOk`. -/

inductive VaultEntry
  | file (content : String)
  | folder
deriving DecidableEq, Repr

structure Vault where
  entries : List (String × VaultEntry)
deriving DecidableEq, Repr

def cortexBasePath : String := ".cortex"

def getAbstractFileByPath (v : Vault) (p : String) : Option VaultEntry :=
  mapGet v.entries p

def isTFile (e : Option VaultEntry) : Bool :=
  match e with
  | some (.file _) => true
  | _ => false

/-- Embedding of `StorageManager.deleteFile` (lines 113-129). -/
def deleteFile (v : Vault) (path : String) (deleteOk : Bool) :
    Except String Unit × Vault :=
  let fullPath := cortexBasePath ++ "/" ++ path
  match getAbstractFileByPath v fullPath with
  | some (.file _) =>
      if deleteOk then (.ok (), { entries := mapDel v.entries fullPath })
      else (.error "Failed to delete file", v)
  | _ => (.ok (), v)

/-! ## Agent configuration data model (`src/types/agent.ts`)

Identifiers (UUID strings in TypeScript) are `Nat`, minted from fresh
counters.  Fields typed `z.record(z.any())` in the schema (`parameters`,
`config`, the function-valued `lifecycle` hooks and the open-ended part of
`outputType`) are opaque payloads with no behavior in the pipeline and are
not carried.  Numeric sampling settings are rationals. -/

inductive ToolType
  | builtin
  | custom
  | mcp
  | hosted
deriving DecidableEq, Repr

structure ToolConfig where
  type : ToolType
  name : String
  enabled : Bool
  description : Option String
  strict : Option Bool
  needsApproval : Bool
deriving DecidableEq, Repr

inductive ToolChoice
  | auto
  | required
  | noTool
  | named (tool : String)
deriving DecidableEq, Repr

structure ModelSettings where
  temperature : Option Rat
  maxTokens : Option Rat
  topP : Option Rat
  frequencyPenalty : Option Rat
  presencePenalty : Option Rat
  toolChoice : Option ToolChoice
deriving DecidableEq, Repr

/-- The `modelConfig` record.  The `agent-manager.ts` generation reads the
provider reference as `modelConfig.provider` (a provider type tag, possibly
absent). -/
structure ModelConfig where
  provider : Option ModelProvider
  model : String
  settings : Option ModelSettings
deriving DecidableEq, Repr

inductive GuardrailKind
  | input
  | output
deriving DecidableEq, Repr

structure GuardrailConfig where
  type : GuardrailKind
  name : String
  enabled : Bool
deriving DecidableEq, Repr

structure MCPServerConfig where
  name : String
  command : Option String
  args : Option (List String)
  url : Option String
  cacheToolsList : Bool
deriving DecidableEq, Repr

inductive ToolUseBehavior
  | runLlmAgain
  | stopOnFirstTool
  | stopAtToolNames (names : List String)
deriving DecidableEq, Repr

inductive OutputType
  | text
  | jsonSchema
deriving DecidableEq, Repr

structure HandoffConfig where
  enabled : Bool
  allowedAgents : List Nat
  description : Option String
  outputTypeWarningEnabled : Bool
deriving DecidableEq, Repr

structure AgentConfig where
  id : Nat
  name : String
  instructions : String
  createdAt : Nat
  updatedAt : Nat
  modelConfig : ModelConfig
  tools : List ToolConfig
  toolUseBehavior : Option ToolUseBehavior
  resetToolChoice : Bool
  handoffConfig : Option HandoffConfig
  outputType : Option OutputType
  inputGuardrails : List GuardrailConfig
  outputGuardrails : List GuardrailConfig
  mcpServers : List MCPServerConfig
deriving DecidableEq, Repr

/-- Embedding of the constraints `AgentConfigSchema.parse` enforces on the
data carried here: name 1-100 characters, instructions non-empty, model name
non-empty (`z.string().min(1)` each). -/
def validateAgentConfig (c : AgentConfig) : Bool :=
  1 ≤ c.name.length && c.name.length ≤ 100 &&
  1 ≤ c.instructions.length &&
  1 ≤ c.modelConfig.model.length

/-- Embedding of `UpdateAgentInputSchema` (the partial creation input): each
updatable field optionally present. -/
structure UpdateAgentInput where
  name : Option String
  instructions : Option String
  modelConfig : Option ModelConfig
  tools : Option (List ToolConfig)
  toolUseBehavior : Option (Option ToolUseBehavior)
  resetToolChoice : Option Bool
  handoffConfig : Option (Option HandoffConfig)
  outputType : Option (Option OutputType)
  inputGuardrails : Option (List GuardrailConfig)
  outputGuardrails : Option (List GuardrailConfig)
  mcpServers : Option (List MCPServerConfig)
deriving DecidableEq, Repr

/-- Constraints `UpdateAgentInputSchema.parse` enforces on present fields. -/
def validateUpdateInput (u : UpdateAgentInput) : Bool :=
  (match u.name with
   | some n => 1 ≤ n.length && n.length ≤ 100
   | none => true) &&
  (match u.instructions with
   | some i => 1 ≤ i.length
   | none => true) &&
  (match u.modelConfig with
   | some mc => 1 ≤ mc.model.length
   | none => true)

/-- The spread merge `{...existingAgent, ...validatedUpdates, updatedAt: now}`
of `AgentManager.updateAgent`: present update fields win, `updatedAt` is
restamped, `id` and `createdAt` are not in the update schema and survive. -/
def applyUpdate (existing : AgentConfig) (u : UpdateAgentInput) (now : Nat) : AgentConfig :=
  { existing with
    name := u.name.getD existing.name,
    instructions := u.instructions.getD existing.instructions,
    modelConfig := u.modelConfig.getD existing.modelConfig,
    tools := u.tools.getD existing.tools,
    toolUseBehavior := u.toolUseBehavior.getD existing.toolUseBehavior,
    resetToolChoice := u.resetToolChoice.getD existing.resetToolChoice,
    handoffConfig := u.handoffConfig.getD existing.handoffConfig,
    outputType := u.outputType.getD existing.outputType,
    inputGuardrails := u.inputGuardrails.getD existing.inputGuardrails,
    outputGuardrails := u.outputGuardrails.getD existing.outputGuardrails,
    mcpServers := u.mcpServers.getD existing.mcpServers,
    updatedAt := now }

/-! ## JSON documents for import and export

Import and export move agent configs through JSON strings.  A parsed JSON
document is modelled by the shapes the two import code paths distinguish: a
bare agent-config object, the export wrapper object
`(version, type, exportedAt, config)` of `agent-storage.ts`, or anything
else.  An unparseable input string (`JSON.parse` throwing) is `none` at the
call sites that take `Option JsonDoc`. -/

/-- The value of a wrapper document's `config` field: a bare agent-config
object, or any other JSON value (which the config schema will reject). -/
inductive ConfigField
  | agentConfigField (c : AgentConfig)
  | nonConfig
deriving DecidableEq, Repr

inductive JsonDoc
  | agentConfigDoc (c : AgentConfig)
  | wrapperDoc (version : Option String) (typeTag : Option String)
      (exportedAt : Option Nat) (config : Option ConfigField)
  | otherDoc
deriving DecidableEq, Repr

/-- Embedding of `AgentConfigSchema.parse` applied to a parsed JSON document:
only a bare agent-config object satisfying the schema constraints parses. -/
def parseAgentConfigDoc (d : JsonDoc) : Except String AgentConfig :=
  match d with
  | .agentConfigDoc c =>
      if validateAgentConfig c then .ok c else .error "schema violation"
  | _ => .error "not an agent config object"

/-! ## Agent instances and the agent factory (`src/agent/agent-factory.ts`)

A runnable SDK `Agent` is `AgentInstance`.  `iid` is a nonce distinguishing
distinct constructed objects (object identity for the cache-invalidation
property).  The model is either a provider-supplied model handle or, from
`resolveModel`, the bare model name string. -/

structure ModelHandle where
  provider : ModelProvider
  modelName : String
deriving DecidableEq, Repr

inductive ModelRef
  | byHandle (h : ModelHandle)
  | byName (s : String)
deriving DecidableEq, Repr

/-- Embedding of `AgentFactory.createTools`: keep enabled non-mcp tools
(placeholder function tools carrying the configured name). -/
def createTools (tools : List ToolConfig) : List String :=
  (tools.filter (fun t => t.enabled && t.type ≠ ToolType.mcp)).map (fun t => t.name)

structure AgentInstance where
  iid : Nat
  name : String
  instructions : String
  model : ModelRef
  modelSettings : Option ModelSettings
  tools : List String
  outputType : OutputType
  resetToolChoice : Bool
  toolUseBehavior : Option ToolUseBehavior
deriving DecidableEq, Repr

/-- Embedding of `AgentFactory.createAgentInstance` (lines 21-57): uses the
provided model handle, or falls back to `resolveModel`, which returns the
model name string from the config. -/
def createAgentInstance (config : AgentConfig) (model : Option ModelHandle)
    (iid : Nat) : AgentInstance :=
  { iid := iid,
    name := config.name,
    instructions := config.instructions,
    model := match model with
      | some m => .byHandle m
      | none => .byName config.modelConfig.model,
    modelSettings := config.modelConfig.settings,
    tools := createTools config.tools,
    outputType := config.outputType.getD OutputType.text,
    resetToolChoice := config.resetToolChoice,
    toolUseBehavior := config.toolUseBehavior }

/-! ## Agent manager (`agent-manager.ts`)

State: the config map, the instance cache, the optionally attached provider
manager, and fresh counters for UUIDs and instance identities.  What
`provider.getModel(name)` does is external (a network call); it is passed in
as an oracle `getModelO : Conn → String → Except String ModelHandle`. -/

structure AMState where
  agents : List (Nat × AgentConfig)
  agentInstances : List (Nat × AgentInstance)
  providerManager : Option PMState
  nextId : Nat
  nextIid : Nat

/-- Embedding of `AgentManager.setProviderManager` (lines 50-54): swap the
provider manager and clear the whole instance cache. -/
def setProviderManager (st : AMState) (pm : PMState) : AMState :=
  { st with providerManager := some pm, agentInstances := [] }

/-- Embedding of `AgentManager.clearInstanceCache` (lines 240-246). -/
def clearInstanceCache (st : AMState) (agentId : Option Nat) : AMState :=
  match agentId with
  | some i => { st with agentInstances := mapDel st.agentInstances i }
  | none => { st with agentInstances := [] }

/-- Embedding of `AgentManager.generateAgent` (lines 216-234): when a provider
manager is attached and the config names a provider, try the provider's
`getModel`; on a missing provider or a thrown `getModel` fall back to
creating the instance with no provider model object. -/
def generateAgent (pm : Option PMState)
    (getModelO : Conn → String → Except String ModelHandle)
    (config : AgentConfig) (iid : Nat) : AgentInstance :=
  match pm, config.modelConfig.provider with
  | some pmSt, some p =>
      (match getProvider pmSt (some p) with
       | some conn =>
           (match getModelO conn config.modelConfig.model with
            | .ok m => createAgentInstance config (some m) iid
            | .error _ => createAgentInstance config none iid)
       | none => createAgentInstance config none iid)
  | _, _ => createAgentInstance config none iid

/-- Embedding of `AgentManager.getAgentInstance` (lines 191-211): cached
instance if present, else resolve from the stored config, cache and return. -/
def getAgentInstance (st : AMState)
    (getModelO : Conn → String → Except String ModelHandle)
    (agentId : Nat) : Except String AgentInstance × AMState :=
  match mapGet st.agentInstances agentId with
  | some cached => (.ok cached, st)
  | none =>
      match mapGet st.agents agentId with
      | none => (.error ("Agent with ID " ++ toString agentId ++ " not found"), st)
      | some config =>
          let inst := generateAgent st.providerManager getModelO config st.nextIid
          (.ok inst,
           { st with
             agentInstances := mapSet st.agentInstances agentId inst,
             nextIid := st.nextIid + 1 })

/-- Embedding of `AgentManager.updateAgent` (lines 104-136). -/
def updateAgent (st : AMState) (agentId : Nat) (updates : UpdateAgentInput)
    (now : Nat) : Except String AgentConfig × AMState :=
  match mapGet st.agents agentId with
  | none => (.error ("Agent with ID " ++ toString agentId ++ " not found"), st)
  | some existing =>
      if !validateUpdateInput updates then
        (.error "Invalid update input", st)
      else
        let updatedConfig := applyUpdate existing updates now
        if !validateAgentConfig updatedConfig then
          (.error "Agent configuration is not valid", st)
        else
          (.ok updatedConfig,
           { st with
             agents := mapSet st.agents agentId updatedConfig,
             agentInstances := mapDel st.agentInstances agentId })

/-- Embedding of `AgentManager.deleteAgent` (lines 141-155). -/
def deleteAgent (st : AMState) (agentId : Nat) : Except String Unit × AMState :=
  match mapGet st.agents agentId with
  | none => (.error ("Agent with ID " ++ toString agentId ++ " not found"), st)
  | some _ =>
      (.ok (),
       { st with
         agents := mapDel st.agents agentId,
         agentInstances := mapDel st.agentInstances agentId })

/-- Embedding of `AgentManager.exportAgentConfig` (lines 251-258):
`JSON.stringify` of the stored config, i.e. the bare config document. -/
def exportAgentConfig (st : AMState) (agentId : Nat) : Except String JsonDoc :=
  match mapGet st.agents agentId with
  | none => .error ("Agent with ID " ++ toString agentId ++ " not found")
  | some agent => .ok (.agentConfigDoc agent)

/-- Embedding of `AgentManager.importAgentConfig` (lines 263-298): parse the
JSON (`none` = `JSON.parse` threw), validate against the agent schema, then
replace id and both timestamps with fresh values and store. -/
def importAgentConfig (st : AMState) (parsed : Option JsonDoc) (now : Nat) :
    Except String AgentConfig × AMState :=
  match parsed with
  | none => (.error "Invalid JSON", st)
  | some doc =>
      match parseAgentConfigDoc doc with
      | .error e => (.error ("Invalid agent configuration: " ++ e), st)
      | .ok validatedConfig =>
          let importedConfig : AgentConfig :=
            { validatedConfig with id := st.nextId, createdAt := now, updatedAt := now }
          (.ok importedConfig,
           { st with
             agents := mapSet st.agents importedConfig.id importedConfig,
             agentInstances := mapDel st.agentInstances importedConfig.id,
             nextId := st.nextId + 1 })

/-- Embedding of `AgentManager.cloneAgent` (lines 303-325): deep copy with a
fresh id, the given name and fresh timestamps; no validation of the new name
and no cache interaction happen in the source. -/
def cloneAgent (st : AMState) (agentId : Nat) (newName : String) (now : Nat) :
    Except String AgentConfig × AMState :=
  match mapGet st.agents agentId with
  | none => (.error ("Agent with ID " ++ toString agentId ++ " not found"), st)
  | some existing =>
      let clonedConfig : AgentConfig :=
        { existing with id := st.nextId, name := newName, createdAt := now, updatedAt := now }
      (.ok clonedConfig,
       { st with
         agents := mapSet st.agents clonedConfig.id clonedConfig,
         nextId := st.nextId + 1 })

/-- All cached instance nonces are below the fresh counter: the freshness
invariant every reachable manager state satisfies. -/
def iidsFresh (st : AMState) : Bool :=
  st.agentInstances.all (fun p => p.2.iid < st.nextIid)

/-! ## Agent storage import (`src/storage/agent-storage.ts`)

`AgentStorage` persists configs as `agents/(id).json` files; here the stored
files are abstracted as the map of stored configs, and the outcome of the
underlying vault write is the input `saveOk`.  Its import (lines 121-161)
differs from the manager's: it requires the export wrapper, checking
`!importData.config || importData.type !== 'cortex-agent-config'`. -/

structure ASState where
  stored : List (Nat × AgentConfig)
deriving DecidableEq, Repr

/-- Embedding of `AgentStorage.importAgentConfig` (lines 121-161). -/
def storageImportAgentConfig (st : ASState) (parsed : Option JsonDoc)
    (now : Nat) (freshId : Nat) (saveOk : Bool) :
    Except String AgentConfig × ASState :=
  match parsed with
  | none => (.error "Failed to import agent config", st)
  | some doc =>
      match doc with
      | .wrapperDoc _ typeTag _ configField =>
          (match configField with
           | none => (.error "Invalid agent config format", st)
           | some cfgDoc =>
               if typeTag ≠ some "cortex-agent-config" then
                 (.error "Invalid agent config format", st)
               else
                 match cfgDoc with
                 | .agentConfigField config =>
                     let newConfig : AgentConfig :=
                       { config with id := freshId, createdAt := now, updatedAt := now }
                     if !validateAgentConfig newConfig then
                       (.error "Invalid agent configuration", st)
                     else if !saveOk then
                       (.error "Failed to save agent config", st)
                     else
                       (.ok newConfig,
                        { stored := mapSet st.stored newConfig.id newConfig })
                 | .nonConfig => (.error "Invalid agent configuration", st))
      | _ => (.error "Invalid agent config format", st)

/-- Whether a parsed document carries the export wrapper with the
`cortex-agent-config` type tag and a config field. -/
def hasWrapperTag (parsed : Option JsonDoc) : Bool :=
  match parsed with
  | some (.wrapperDoc _ typeTag _ (some _)) => typeTag == some "cortex-agent-config"
  | _ => false

/-! ## Session data model (`src/types/session.ts`) -/

inductive Role
  | user
  | assistant
  | system
deriving DecidableEq, Repr

inductive ContentItem
  | text (t : String)
  | outputText (t : String)
deriving DecidableEq, Repr

inductive MsgContent
  | str (s : String)
  | blocks (items : List ContentItem)
deriving DecidableEq, Repr

inductive MsgStatus
  | pending
  | completed
  | failed
deriving DecidableEq, Repr

structure Message where
  id : Nat
  role : Role
  content : MsgContent
  timestamp : Nat
  status : Option MsgStatus
deriving DecidableEq, Repr

structure FunctionCall where
  id : Nat
  name : String
  arguments : String
  callId : String
  status : MsgStatus
deriving DecidableEq, Repr

structure FunctionCallResult where
  name : String
  callId : String
  completed : Bool
  output : String
deriving DecidableEq, Repr

structure Handoff where
  id : Nat
  fromAgentId : Nat
  toAgentId : Nat
  reason : Option String
  timestamp : Nat
deriving DecidableEq, Repr

inductive HistoryItem
  | message (m : Message)
  | functionCall (f : FunctionCall)
  | functionCallResult (r : FunctionCallResult)
  | handoff (h : Handoff)
deriving DecidableEq, Repr

def isMessageItem : HistoryItem → Bool
  | .message _ => true
  | _ => false

structure SessionContext where
  totalTokens : Nat
  totalMessages : Nat
  totalFunctionCalls : Nat
  lastActivity : Nat
  lastAgentId : Option Nat
deriving DecidableEq, Repr

inductive SessionStatus
  | active
  | paused
  | completed
deriving DecidableEq, Repr

structure ChatSession where
  id : Nat
  agentId : Nat
  name : String
  createdAt : Nat
  updatedAt : Nat
  history : List HistoryItem
  context : SessionContext
  status : SessionStatus
deriving DecidableEq, Repr

/-! ## Session manager (`src/session/session-manager.ts`)

State: the in-memory session map and the fresh-UUID counter.  Environment
inputs: whether the owning agent exists (`agentManager.hasAgent`), the
resolution outcome of `agentManager.getAgentInstance`, the SDK `run` call
(an oracle from the conversation input it is given to a result or a thrown
error) and whether `sessionStorage.saveSession` succeeds. -/

structure SMState where
  sessions : List (Nat × ChatSession)
  nextId : Nat

/-- A `(role, content)` entry of the conversation input handed to `run`. -/
structure ConvMessage where
  role : Role
  content : String
deriving DecidableEq, Repr

/-- `JSON.stringify` of a content-block array, as `buildConversationInput`
applies it to non-string message content.  Escaping of special characters
inside the text is not modelled; no claim depends on the rendered bytes. -/
def contentItemToJson : ContentItem → String
  | .text t => "\x7b\"type\":\"text\",\"text\":\"" ++ t ++ "\"\x7d"
  | .outputText t => "\x7b\"type\":\"output_text\",\"text\":\"" ++ t ++ "\"\x7d"

def serializeMsgContent : MsgContent → String
  | .str s => s
  | .blocks items =>
      "[" ++ String.intercalate "," (items.map contentItemToJson) ++ "]"

/-- Embedding of `SessionManager.buildConversationInput` (lines 302-313):
keep only message-type items and map each to its role plus stringified
content.  The source filters on `item.type === 'message'` and then casts;
the filter and the cast-then-map fuse into one `filterMap`. -/
def buildConversationInput (history : List HistoryItem) : List ConvMessage :=
  history.filterMap (fun item =>
    match item with
    | .message m => some { role := m.role, content := serializeMsgContent m.content }
    | _ => none)

/-- An item of the trace an SDK `run` returns; only its type tag is ever
inspected (`item.type === "function_call"`). -/
structure RunItem where
  itemType : String
deriving DecidableEq, Repr

structure RunResult where
  finalOutput : Option String
  history : List RunItem
deriving DecidableEq, Repr

/-- Constraints `CreateSessionInputSchema.parse` enforces. -/
def validateSessionName (name : String) : Bool :=
  1 ≤ name.length && name.length ≤ 100

/-- Embedding of `SessionManager.createSession` (lines 57-116). -/
def createSession (st : SMState) (agentId : Nat) (name : String)
    (agentKnown : Bool) (now : Nat) (saveOk : Bool) :
    Except String ChatSession × SMState :=
  if !validateSessionName name then
    (.error "Failed to create session", st)
  else if !agentKnown then
    (.error ("Agent " ++ toString agentId ++ " not found"), st)
  else
    let session : ChatSession :=
      { id := st.nextId,
        agentId := agentId,
        name := name,
        createdAt := now,
        updatedAt := now,
        history := [],
        context :=
          { totalTokens := 0, totalMessages := 0, totalFunctionCalls := 0,
            lastActivity := now, lastAgentId := none },
        status := .active }
    if !saveOk then
      (.error "Failed to save session", st)
    else
      (.ok session,
       { st with
         sessions := mapSet st.sessions session.id session,
         nextId := st.nextId + 1 })

/-- Result of a `sendMessage` call: the returned value, the manager state
after the call (the session object is mutated in place, so failed calls can
still leave the appended messages in memory, exactly as in the source), and
— as instrumentation for stating what was passed to the SDK — the
conversation input handed to `run` (`none` when `run` was never reached). -/
structure SendOutcome where
  result : Except String Message
  state : SMState
  convInput : Option (List ConvMessage)

/-- Embedding of `SessionManager.sendMessage` (lines 206-297).  `agentRes` is
the outcome of `agentManager.getAgentInstance` (resolved before any
mutation), `runO` the SDK call, `saveOk` the persistence outcome, `uid1` and
`uid2` the two generated message UUIDs. -/
def sendMessage (st : SMState) (sessionId : Nat) (content : String)
    (agentRes : Except String AgentInstance)
    (runO : List ConvMessage → Except String RunResult)
    (saveOk : Bool) (now : Nat) (uid1 uid2 : Nat) : SendOutcome :=
  match mapGet st.sessions sessionId with
  | none =>
      { result := .error ("Session " ++ toString sessionId ++ " not found"),
        state := st, convInput := none }
  | some session =>
      match agentRes with
      | .error e => { result := .error e, state := st, convInput := none }
      | .ok _agent =>
          let userMessage : Message :=
            { id := uid1, role := .user, content := .str content,
              timestamp := now, status := some .completed }
          let session1 : ChatSession :=
            { session with
              history := session.history ++ [.message userMessage],
              context :=
                { session.context with
                  totalMessages := session.context.totalMessages + 1,
                  lastActivity := now },
              updatedAt := now }
          let st1 : SMState := { st with sessions := mapSet st.sessions sessionId session1 }
          let conv := buildConversationInput session1.history
          match runO conv with
          | .error e => { result := .error e, state := st1, convInput := some conv }
          | .ok result =>
              let assistantMessage : Message :=
                { id := uid2, role := .assistant,
                  content := .str (result.finalOutput.getD ""),
                  timestamp := now, status := some .completed }
              let fcCount :=
                (result.history.filter (fun i => i.itemType == "function_call")).length
              let session2 : ChatSession :=
                { session1 with
                  history := session1.history ++ [.message assistantMessage],
                  context :=
                    { session1.context with
                      totalMessages := session1.context.totalMessages + 1,
                      totalFunctionCalls := session1.context.totalFunctionCalls + fcCount,
                      lastActivity := now },
                  updatedAt := now }
              let st2 : SMState := { st with sessions := mapSet st.sessions sessionId session2 }
              if !saveOk then
                { result := .error "Failed to save session", state := st2, convInput := some conv }
              else
                { result := .ok assistantMessage, state := st2, convInput := some conv }

/-- One session-manager call of the sequences the counter invariant ranges
over: a `createSession` or a `sendMessage` with its environment inputs. -/
inductive SMOp
  | create (agentId : Nat) (name : String) (agentKnown : Bool) (now : Nat) (saveOk : Bool)
  | send (sessionId : Nat) (content : String)
      (agentRes : Except String AgentInstance)
      (runO : List ConvMessage → Except String RunResult)
      (saveOk : Bool) (now uid1 uid2 : Nat)

def applyOp (st : SMState) : SMOp → SMState
  | .create agentId name agentKnown now saveOk =>
      (createSession st agentId name agentKnown now saveOk).2
  | .send sessionId content agentRes runO saveOk now uid1 uid2 =>
      (sendMessage st sessionId content agentRes runO saveOk now uid1 uid2).state

/-- The session counter consistency predicate: `totalMessages` equals the
number of message-type history items. -/
def counterOk (s : ChatSession) : Bool :=
  s.context.totalMessages == (s.history.filter isMessageItem).length

def counterInv (st : SMState) : Bool :=
  st.sessions.all (fun p => counterOk p.2)

/-- Spec-side definition, following the spec's words for the conversation
input: the projection of all history items of type message, in history
order, each mapped to role plus content, with non-string content serialized
to a JSON string.  To be compared with `buildConversationInput`, which is
translated from the source. -/
def specMessageProjection (history : List HistoryItem) : List ConvMessage :=
  history.foldr
    (fun item acc =>
      match item with
      | .message m => { role := m.role, content := serializeMsgContent m.content } :: acc
      | _ => acc) []

/-! ## Concrete fixtures used by counterexamples and witnesses -/

/-- A schema-valid agent config used as concrete input. -/
def sampleAgentConfig : AgentConfig :=
  { id := 1, name := "T", instructions := "You help.",
    createdAt := 5, updatedAt := 5,
    modelConfig := { provider := some .OpenAI, model := "gpt-4", settings := none },
    tools := [], toolUseBehavior := none, resetToolChoice := true,
    handoffConfig := none, outputType := none,
    inputGuardrails := [], outputGuardrails := [], mcpServers := [] }

/-- An update input touching only the name. -/
def sampleUpdateName : UpdateAgentInput :=
  { name := some "T2", instructions := none, modelConfig := none, tools := none,
    toolUseBehavior := none, resetToolChoice := none, handoffConfig := none,
    outputType := none, inputGuardrails := none, outputGuardrails := none,
    mcpServers := none }

def c1OldCfg : ProviderConfig :=
  { provider := some .OpenAI, apiKey := some "sk-old", baseUrl := none, enabled := true }

def c1NewCfg : ProviderConfig :=
  { provider := some .OpenAI, apiKey := some "sk-new", baseUrl := none, enabled := true }

/-- A provider-manager state with a connected OpenAI provider registered. -/
def c1Pre : PMState :=
  { providers := [(.OpenAI, { cfg := c1OldCfg, iid := 0, inited := true })],
    globalSettings := none, defaultProvider := none, nextIid := 1 }

/-- An agent-manager state holding `sampleAgentConfig` under id 1, an empty
instance cache and an attached provider manager with no providers. -/
def c3St : AMState :=
  { agents := [(1, sampleAgentConfig)], agentInstances := [],
    providerManager := some { providers := [], globalSettings := none,
                              defaultProvider := none, nextIid := 0 },
    nextId := 2, nextIid := 0 }

/-- An agent-manager state with a cached instance (nonce 0) for agent 1. -/
def c6St : AMState :=
  { agents := [(1, sampleAgentConfig)],
    agentInstances := [(1, createAgentInstance sampleAgentConfig none 0)],
    providerManager := none, nextId := 2, nextIid := 1 }

/-- An agent-manager state holding `sampleAgentConfig` and no cache. -/
def c4St : AMState :=
  { agents := [(1, sampleAgentConfig)], agentInstances := [],
    providerManager := none, nextId := 2, nextIid := 0 }

/-- A concrete runnable instance for exercising `sendMessage`. -/
def sampleInstance : AgentInstance :=
  createAgentInstance sampleAgentConfig none 0

end Cortex

namespace Cortex

/-! ## Map lemmas -/

theorem mapGet_mapSet_self {K V : Type} [DecidableEq K] (m : List (K × V)) (k : K) (v : V) :
    mapGet (mapSet m k v) k = some v := by
  induction m with
  | nil => simp [mapSet, mapGet]
  | cons p rest ih =>
      cases p with
      | mk k0 v0 =>
        by_cases hk : k0 = k
        · simp [mapSet, hk, mapGet]
        · simp [mapSet, hk, mapGet, ih]

theorem all_mapSet {K V : Type} [DecidableEq K] {m : List (K × V)} {P : V → Bool}
    {k : K} {v : V} (h : m.all (fun p => P p.2) = true) (hv : P v = true) :
    (mapSet m k v).all (fun p => P p.2) = true := by
  rw [List.all_eq_true] at h ⊢
  intro q hq
  rcases mem_mapSet hq with h1 | h1
  · subst h1
    simpa using hv
  · exact h q h1

theorem all_of_mapGet {K V : Type} [DecidableEq K] {m : List (K × V)} {P : V → Bool}
    {k : K} {v : V} (h : m.all (fun p => P p.2) = true) (hv : mapGet m k = some v) :
    P v = true := by
  rw [List.all_eq_true] at h
  simpa using h (k, v) (mapGet_mem hv)

/-- Deleting a key from the registry map is all `removeProvider` does to the
`providers` field. -/
theorem removeProvider_some_providers (st : PMState) (p : ModelProvider) :
    (removeProvider st (some p)).providers = mapDel st.providers p := by
  simp only [removeProvider]
  split <;> rfl

/-! ## C10 -/

/-- C10: for every path, `deleteFile` returns a success result when no file
exists at that path — deletion of an absent file is an idempotent no-op that
also leaves the vault unchanged. -/
theorem c10_deleteFile_absent_is_success (v : Vault) (path : String) (deleteOk : Bool)
    (h : isTFile (getAbstractFileByPath v (cortexBasePath ++ "/" ++ path)) = false) :
    deleteFile v path deleteOk = (.ok (), v) := by
  simp only [deleteFile]
  split
  · next content heq =>
      rw [heq] at h
      simp [isTFile] at h
  · rfl

/-- Witness for C10 at a concrete vault (one folder, no file at the path). -/
theorem c10_deleteFile_absent_is_success_witness :
    isTFile (getAbstractFileByPath { entries := [(".cortex/agents", .folder)] }
      (cortexBasePath ++ "/" ++ "agents/a.json")) = false ∧
    deleteFile { entries := [(".cortex/agents", .folder)] } "agents/a.json" true =
      (.ok (), { entries := [(".cortex/agents", .folder)] }) :=
  ⟨by decide,
   c10_deleteFile_absent_is_success
     { entries := [(".cortex/agents", .folder)] } "agents/a.json" true (by decide)⟩

/-! ## C9 -/

/-- C9: disabled provider configs validate as valid with an empty error list
regardless of missing fields; enabled configs fail with an error naming the
missing field (OpenAI without an api key, OpenAICompatible without a base
url, Ollama with a non-empty base url that does not parse as a URL); and an
`addProvider` call that fails validation leaves the manager state, in
particular the available-providers list, unchanged. -/
theorem c9_provider_validation :
    (∀ (f : String → Bool) (c : ProviderConfig), c.enabled = false →
       validateProviderConfig f c = { valid := true, errors := [] }) ∧
    (∀ (f : String → Bool) (c : ProviderConfig), c.enabled = true →
       c.provider = some ModelProvider.OpenAI → strTruthy c.apiKey = false →
       (validateProviderConfig f c).valid = false ∧
       "OpenAI API key is required" ∈ (validateProviderConfig f c).errors) ∧
    (∀ (f : String → Bool) (c : ProviderConfig), c.enabled = true →
       c.provider = some ModelProvider.OpenAICompatible → strTruthy c.baseUrl = false →
       (validateProviderConfig f c).valid = false ∧
       "Base URL is required for OpenAI Compatible provider" ∈
         (validateProviderConfig f c).errors) ∧
    (∀ (f : String → Bool) (c : ProviderConfig) (u : String), c.enabled = true →
       c.provider = some ModelProvider.Ollama → c.baseUrl = some u → u ≠ "" →
       f u = false →
       (validateProviderConfig f c).valid = false ∧
       "Invalid base URL format for Ollama provider" ∈ (validateProviderConfig f c).errors) ∧
    (∀ (f : String → Bool) (st : PMState) (c : ProviderConfig) (connectOk : Bool),
       (validateProviderConfig f c).valid = false →
       (addProvider f st c connectOk).2 = st ∧
       getAvailableProviders (addProvider f st c connectOk).2 = getAvailableProviders st) := by
  refine ⟨?_, ?_, ?_, ?_, ?_⟩
  · intro f c hc
    simp [validateProviderConfig, hc]
  · intro f c hc hp hk
    simp [validateProviderConfig, hc, hp, hk]
  · intro f c hc hp hb
    simp [validateProviderConfig, hc, hp, hb]
  · intro f c u hc hp hb hne hf
    have ht : strTruthy (some u) = true := by
      simp [strTruthy]
      exact hne
    simp [validateProviderConfig, hc, hp, hb, ht, hf]
  · intro f st c connectOk hv
    constructor
    · simp [addProvider, hv]
    · simp [addProvider, hv]

/-- Witness for C9 at concrete configs: a disabled config with every field
missing, an enabled OpenAI config with no api key, an enabled
OpenAICompatible config with no base url, an enabled Ollama config whose
base url fails URL parsing, and the failed add of the key-less OpenAI config
against a state with one registered provider. -/
theorem c9_provider_validation_witness :
    validateProviderConfig (fun _ => true)
        { provider := none, apiKey := none, baseUrl := none, enabled := false } =
      { valid := true, errors := [] } ∧
    ((validateProviderConfig (fun _ => true)
        { provider := some .OpenAI, apiKey := none, baseUrl := none, enabled := true }).valid
        = false ∧
      "OpenAI API key is required" ∈
        (validateProviderConfig (fun _ => true)
          { provider := some .OpenAI, apiKey := none, baseUrl := none, enabled := true }).errors) ∧
    ((validateProviderConfig (fun _ => true)
        { provider := some .OpenAICompatible, apiKey := none, baseUrl := none,
          enabled := true }).valid = false ∧
      "Base URL is required for OpenAI Compatible provider" ∈
        (validateProviderConfig (fun _ => true)
          { provider := some .OpenAICompatible, apiKey := none, baseUrl := none,
            enabled := true }).errors) ∧
    ((validateProviderConfig (fun _ => false)
        { provider := some .Ollama, apiKey := none, baseUrl := some "not a url",
          enabled := true }).valid = false ∧
      "Invalid base URL format for Ollama provider" ∈
        (validateProviderConfig (fun _ => false)
          { provider := some .Ollama, apiKey := none, baseUrl := some "not a url",
            enabled := true }).errors) ∧
    ((addProvider (fun _ => true) c1Pre
        { provider := some .OpenAI, apiKey := none, baseUrl := none, enabled := true }
        true).2 = c1Pre ∧
      getAvailableProviders (addProvider (fun _ => true) c1Pre
        { provider := some .OpenAI, apiKey := none, baseUrl := none, enabled := true }
        true).2 = getAvailableProviders c1Pre) :=
  ⟨c9_provider_validation.1 _ _ rfl,
   c9_provider_validation.2.1 _ _ rfl rfl rfl,
   c9_provider_validation.2.2.1 _ _ rfl rfl rfl,
   c9_provider_validation.2.2.2.1 _ _ "not a url" rfl rfl rfl (by decide) rfl,
   c9_provider_validation.2.2.2.2 _ _ _ _ (by decide)⟩

/-! ## C1 -/

/-- C1 counterexample: against a state with a connected OpenAI provider
registered, an `addProvider` call with a valid enabled OpenAI config whose
connectivity handshake throws does fail — but the previously registered
provider under the same key is no longer present afterwards, so a failing
add does not leave the registry exactly as it was before the call. -/
theorem c1_addProvider_failure_counterexample :
    (addProvider (fun _ => true) c1Pre c1NewCfg false).1 =
      .error "Provider initialization failed" ∧
    mapGet c1Pre.providers ModelProvider.OpenAI =
      some { cfg := c1OldCfg, iid := 0, inited := true } ∧
    mapGet (addProvider (fun _ => true) c1Pre c1NewCfg false).2.providers
      ModelProvider.OpenAI = none := by
  refine ⟨rfl, by decide, by decide⟩

/-- C1 amended: a failing `addProvider` stores no new entry; on a validation
failure the whole manager state is exactly as before the call, while on a
connection-construction or handshake failure the previously registered
provider under the config's key has already been removed, leaving the
registry map equal to the original with that key deleted (and hence no entry
under that key). -/
theorem c1_addProvider_failure_amended (f : String → Bool) (st : PMState)
    (config : ProviderConfig) (connectOk : Bool) (e : String)
    (h : (addProvider f st config connectOk).1 = .error e) :
    (addProvider f st config connectOk).2 = st ∨
    (∃ p, config.provider = some p ∧
      (addProvider f st config connectOk).2.providers = mapDel st.providers p ∧
      mapGet (addProvider f st config connectOk).2.providers p = none) := by
  cases hv : (validateProviderConfig f config).valid with
  | false =>
      left
      simp [addProvider, hv]
  | true =>
      cases he : config.enabled with
      | false =>
          exfalso
          simp [addProvider, hv, he] at h
      | true =>
          cases hp : config.provider with
          | none =>
              left
              simp [addProvider, hv, he, hp, removeProvider]
          | some p =>
              cases hc : connectOk with
              | true =>
                  exfalso
                  simp [addProvider, hv, he, hp, hc] at h
              | false =>
                  right
                  refine ⟨p, rfl, ?_, ?_⟩
                  · simp [addProvider, hv, he, hp, hc, removeProvider_some_providers]
                  · simp [addProvider, hv, he, hp, hc, removeProvider_some_providers,
                      mapGet_mapDel_self]

/-- Witness for C1's amended statement at the counterexample's input. -/
theorem c1_addProvider_failure_amended_witness :
    (addProvider (fun _ => true) c1Pre c1NewCfg false).2 = c1Pre ∨
    (∃ p, c1NewCfg.provider = some p ∧
      (addProvider (fun _ => true) c1Pre c1NewCfg false).2.providers =
        mapDel c1Pre.providers p ∧
      mapGet (addProvider (fun _ => true) c1Pre c1NewCfg false).2.providers p = none) :=
  c1_addProvider_failure_amended (fun _ => true) c1Pre c1NewCfg false
    "Provider initialization failed" rfl

/-! ## C3 -/

/-- Every branch of `generateAgent` builds its instance with the nonce it was
given. -/
theorem generateAgent_iid (pm : Option PMState)
    (getModelO : Conn → String → Except String ModelHandle)
    (config : AgentConfig) (iid : Nat) :
    (generateAgent pm getModelO config iid).iid = iid := by
  unfold generateAgent
  split
  · split
    · split <;> rfl
    · rfl
  · rfl

/-- C3: when a provider manager is attached and the stored config names a
provider, but resolving the model through the registry fails — the provider
is absent from the registry, or its `getModel` throws — `getAgentInstance`
does not fail: it returns the instance built from the bare model name with
no provider-supplied model object. -/
theorem c3_provider_fallback (st : AMState)
    (getModelO : Conn → String → Except String ModelHandle)
    (agentId : Nat) (config : AgentConfig) (pmSt : PMState) (p : ModelProvider)
    (hcache : mapGet st.agentInstances agentId = none)
    (hcfg : mapGet st.agents agentId = some config)
    (hpm : st.providerManager = some pmSt)
    (hp : config.modelConfig.provider = some p)
    (hfail : getProvider pmSt (some p) = none ∨
      ∃ conn e, getProvider pmSt (some p) = some conn ∧
        getModelO conn config.modelConfig.model = .error e) :
    (getAgentInstance st getModelO agentId).1 =
      .ok (createAgentInstance config none st.nextIid) ∧
    (createAgentInstance config none st.nextIid).model =
      ModelRef.byName config.modelConfig.model := by
  constructor
  · have hgen : generateAgent st.providerManager getModelO config st.nextIid =
        createAgentInstance config none st.nextIid := by
      rw [hpm]
      rcases hfail with hnone | ⟨conn, e, hconn, herr⟩
      · simp [generateAgent, hp, hnone]
      · simp [generateAgent, hp, hconn, herr]
    simp [getAgentInstance, hcache, hcfg, hgen]
  · simp [createAgentInstance]

/-- Witness for C3: agent 1 of `c3St` names the OpenAI provider, the attached
provider manager has an empty registry, and resolution returns the instance
carrying the bare model name. -/
theorem c3_provider_fallback_witness :
    (getAgentInstance c3St (fun _ _ => .error "no model") 1).1 =
      .ok (createAgentInstance sampleAgentConfig none 0) ∧
    (createAgentInstance sampleAgentConfig none 0).model =
      ModelRef.byName sampleAgentConfig.modelConfig.model :=
  c3_provider_fallback c3St (fun _ _ => .error "no model") 1 sampleAgentConfig
    { providers := [], globalSettings := none, defaultProvider := none, nextIid := 0 }
    ModelProvider.OpenAI rfl rfl rfl rfl (Or.inl rfl)

/-! ## C5 -/

/-- C5 counterexample: a successful `updateAgent` issued in the same
millisecond as the previous mutation (`now` equal to the stored
`updatedAt`) returns a config whose `updatedAt` equals — is not strictly
greater than — the value before the call. -/
theorem c5_timestamp_monotonicity_counterexample :
    (updateAgent c4St 1 sampleUpdateName 5).1 =
      .ok (applyUpdate sampleAgentConfig sampleUpdateName 5) ∧
    sampleAgentConfig.updatedAt = 5 ∧
    ¬ sampleAgentConfig.updatedAt <
        (applyUpdate sampleAgentConfig sampleUpdateName 5).updatedAt := by
  refine ⟨rfl, rfl, by decide⟩

/-- C5 amended: a successful `updateAgent` stamps `updatedAt` with the call
time and preserves `createdAt`, so `updatedAt` strictly increases whenever
the clock has advanced past the stored `updatedAt`; a successful
`cloneAgent` stamps the clone's `createdAt` with the clone call time rather
than copying the original's, so the two differ whenever the clock has
advanced. -/
theorem c5_timestamp_monotonicity_amended :
    (∀ (st : AMState) (agentId : Nat) (u : UpdateAgentInput) (now : Nat)
       (cfgNew old : AgentConfig),
       mapGet st.agents agentId = some old →
       (updateAgent st agentId u now).1 = .ok cfgNew →
       cfgNew.updatedAt = now ∧ cfgNew.createdAt = old.createdAt ∧
       (old.updatedAt < now → old.updatedAt < cfgNew.updatedAt)) ∧
    (∀ (st : AMState) (agentId : Nat) (newName : String) (now : Nat)
       (cfgClone old : AgentConfig),
       mapGet st.agents agentId = some old →
       (cloneAgent st agentId newName now).1 = .ok cfgClone →
       cfgClone.createdAt = now ∧
       (old.createdAt ≠ now → cfgClone.createdAt ≠ old.createdAt)) := by
  constructor
  · intro st agentId u now cfgNew old hold hupd
    have : (updateAgent st agentId u now).1 =
        (if !validateUpdateInput u then (.error "Invalid update input", st)
         else
           let updatedConfig := applyUpdate old u now
           if !validateAgentConfig updatedConfig then
             (.error "Agent configuration is not valid", st)
           else
             (.ok updatedConfig,
              { st with
                agents := mapSet st.agents agentId updatedConfig,
                agentInstances := mapDel st.agentInstances agentId })).1 := by
      simp [updateAgent, hold]
    rw [this] at hupd
    cases hvu : validateUpdateInput u with
    | false => simp [hvu] at hupd
    | true =>
        cases hvc : validateAgentConfig (applyUpdate old u now) with
        | false => simp [hvu, hvc] at hupd
        | true =>
            simp [hvu, hvc] at hupd
            subst hupd
            refine ⟨rfl, rfl, ?_⟩
            intro hlt
            simpa [applyUpdate] using hlt
  · intro st agentId newName now cfgClone old hold hclone
    have hc : cfgClone =
        { old with id := st.nextId, name := newName, createdAt := now, updatedAt := now } := by
      have hres : (cloneAgent st agentId newName now).1 = .ok { old with id := st.nextId, name := newName, createdAt := now, updatedAt := now } := by
        simp [cloneAgent, hold]
      rw [hres] at hclone
      exact (Except.ok.inj hclone).symm
    subst hc
    refine ⟨rfl, ?_⟩
    intro hne
    simpa using fun h => hne h.symm

/-- Witness for C5's amended statement: an update of agent 1 at a strictly
later time, and a clone at a strictly later time. -/
theorem c5_timestamp_monotonicity_amended_witness :
    ((applyUpdate sampleAgentConfig sampleUpdateName 9).updatedAt = 9 ∧
      (applyUpdate sampleAgentConfig sampleUpdateName 9).createdAt =
        sampleAgentConfig.createdAt ∧
      (sampleAgentConfig.updatedAt < 9 →
        sampleAgentConfig.updatedAt <
          (applyUpdate sampleAgentConfig sampleUpdateName 9).updatedAt)) ∧
    (({ sampleAgentConfig with id := 2, name := "Clone", createdAt := 9, updatedAt := 9 } : AgentConfig).createdAt = 9 ∧
      (sampleAgentConfig.createdAt ≠ 9 →
        ({ sampleAgentConfig with id := 2, name := "Clone", createdAt := 9, updatedAt := 9 } : AgentConfig).createdAt ≠ sampleAgentConfig.createdAt)) :=
  ⟨c5_timestamp_monotonicity_amended.1 c4St 1 sampleUpdateName 9
      (applyUpdate sampleAgentConfig sampleUpdateName 9) sampleAgentConfig rfl rfl,
   c5_timestamp_monotonicity_amended.2 c4St 1 "Clone" 9
      { sampleAgentConfig with id := 2, name := "Clone", createdAt := 9, updatedAt := 9 }
      sampleAgentConfig rfl rfl⟩

/-! ## C6 -/

/-- C6: after a successful `updateAgent` on an id with a cached instance, a
subsequent `getAgentInstance` never returns the object cached before the
mutation; after `deleteAgent` the cache holds nothing under the id; and
`setProviderManager` empties the whole instance cache. -/
theorem c6_cache_invalidation :
    (∀ (st : AMState) (getModelO : Conn → String → Except String ModelHandle)
       (agentId : Nat) (old : AgentInstance) (u : UpdateAgentInput) (now : Nat)
       (cfgNew : AgentConfig) (inst2 : AgentInstance),
       iidsFresh st = true →
       mapGet st.agentInstances agentId = some old →
       (updateAgent st agentId u now).1 = .ok cfgNew →
       (getAgentInstance (updateAgent st agentId u now).2 getModelO agentId).1 =
         .ok inst2 →
       inst2 ≠ old) ∧
    (∀ (st : AMState) (agentId : Nat),
       (deleteAgent st agentId).1 = .ok () →
       mapGet (deleteAgent st agentId).2.agentInstances agentId = none) ∧
    (∀ (st : AMState) (pm : PMState),
       (setProviderManager st pm).agentInstances = []) := by
  refine ⟨?_, ?_, ?_⟩
  · intro st getModelO agentId old u now cfgNew inst2 hfresh hold hupd hget
    have holdiid : old.iid < st.nextIid := by
      have := all_of_mapGet (m := st.agentInstances)
        (P := fun i => i.iid < st.nextIid) (k := agentId) (v := old) ?_ hold
      · simpa using this
      · simpa [iidsFresh] using hfresh
    cases hex : mapGet st.agents agentId with
    | none => simp [updateAgent, hex] at hupd
    | some existing =>
        cases hvu : validateUpdateInput u with
        | false => simp [updateAgent, hex, hvu] at hupd
        | true =>
            cases hvc : validateAgentConfig (applyUpdate existing u now) with
            | false => simp [updateAgent, hex, hvu, hvc] at hupd
            | true =>
                have hpost : (updateAgent st agentId u now).2 =
                    { st with
                      agents := mapSet st.agents agentId (applyUpdate existing u now),
                      agentInstances := mapDel st.agentInstances agentId } := by
                  simp [updateAgent, hex, hvu, hvc]
                rw [hpost] at hget
                have hmiss : mapGet (mapDel st.agentInstances agentId) agentId = none :=
                  mapGet_mapDel_self _ _
                have hcfg2 : mapGet (mapSet st.agents agentId
                    (applyUpdate existing u now)) agentId =
                      some (applyUpdate existing u now) :=
                  mapGet_mapSet_self _ _ _
                simp [getAgentInstance, hmiss, hcfg2] at hget
                have hiid : inst2.iid = st.nextIid := by
                  rw [← hget]
                  exact generateAgent_iid _ _ _ _
                intro heq
                rw [heq] at hiid
                omega
  · intro st agentId hdel
    cases hex : mapGet st.agents agentId with
    | none => simp [deleteAgent, hex] at hdel
    | some existing =>
        simp [deleteAgent, hex, mapGet_mapDel_self]
  · intro st pm
    rfl

/-- Witness for C6 at `c6St`: agent 1 has a cached instance with nonce 0; the
update succeeds, the rebuilt instance differs from the old cached object, the
delete empties the cache slot, and a provider-manager swap clears the cache. -/
theorem c6_cache_invalidation_witness :
    createAgentInstance (applyUpdate sampleAgentConfig sampleUpdateName 9) none 1 ≠
      createAgentInstance sampleAgentConfig none 0 ∧
    mapGet (deleteAgent c6St 1).2.agentInstances 1 = none ∧
    (setProviderManager c6St
      { providers := [], globalSettings := none, defaultProvider := none,
        nextIid := 0 }).agentInstances = [] :=
  ⟨c6_cache_invalidation.1 c6St (fun _ _ => .error "no model") 1
      (createAgentInstance sampleAgentConfig none 0) sampleUpdateName 9
      (applyUpdate sampleAgentConfig sampleUpdateName 9)
      (createAgentInstance (applyUpdate sampleAgentConfig sampleUpdateName 9) none 1)
      rfl rfl rfl rfl,
   c6_cache_invalidation.2.1 c6St 1 rfl,
   c6_cache_invalidation.2.2 c6St _⟩

/-! ## C4 -/

/-- C4 counterexample: export of agent 1 followed by an import issued in the
same millisecond as the original's creation (`now = 5 = createdAt`) succeeds
and preserves every non-identity field, but the imported config's
`createdAt` equals the original's — the three replaced fields do not all
differ. -/
theorem c4_export_import_roundtrip_counterexample :
    exportAgentConfig c4St 1 = .ok (.agentConfigDoc sampleAgentConfig) ∧
    (importAgentConfig c4St (some (.agentConfigDoc sampleAgentConfig)) 5).1 =
      .ok { sampleAgentConfig with id := 2, createdAt := 5, updatedAt := 5 } ∧
    ({ sampleAgentConfig with id := 2, createdAt := 5, updatedAt := 5 } : AgentConfig).createdAt =
      sampleAgentConfig.createdAt :=
  ⟨rfl, rfl, rfl⟩

/-- C4 amended: for a stored schema-valid config,
`importAgentConfig (exportAgentConfig id)` succeeds and stores a config equal
to the original in every field except id, createdAt and updatedAt; the new id
is fresh and differs from the original's, and the two timestamps are set to
the import time, differing from the original's whenever the clock differs
from the original's stamps. -/
theorem c4_export_import_roundtrip_amended (st : AMState) (agentId : Nat)
    (config : AgentConfig) (now : Nat)
    (hstored : mapGet st.agents agentId = some config)
    (hvalid : validateAgentConfig config = true)
    (hid : st.nextId ≠ config.id)
    (hc : now ≠ config.createdAt) (hu : now ≠ config.updatedAt) :
    exportAgentConfig st agentId = .ok (.agentConfigDoc config) ∧
    (importAgentConfig st (some (.agentConfigDoc config)) now).1 =
      .ok { config with id := st.nextId, createdAt := now, updatedAt := now } ∧
    mapGet (importAgentConfig st (some (.agentConfigDoc config)) now).2.agents st.nextId =
      some { config with id := st.nextId, createdAt := now, updatedAt := now } ∧
    ({ { config with id := st.nextId, createdAt := now, updatedAt := now } with id := config.id, createdAt := config.createdAt, updatedAt := config.updatedAt } : AgentConfig) = config ∧
    ({ config with id := st.nextId, createdAt := now, updatedAt := now } : AgentConfig).id ≠ config.id ∧
    ({ config with id := st.nextId, createdAt := now, updatedAt := now } : AgentConfig).createdAt ≠ config.createdAt ∧
    ({ config with id := st.nextId, createdAt := now, updatedAt := now } : AgentConfig).updatedAt ≠ config.updatedAt := by
  refine ⟨?_, ?_, ?_, rfl, ?_, ?_, ?_⟩
  · simp [exportAgentConfig, hstored]
  · simp [importAgentConfig, parseAgentConfigDoc, hvalid]
  · simp [importAgentConfig, parseAgentConfigDoc, hvalid, mapGet_mapSet_self]
  · simpa using hid
  · simpa using hc
  · simpa using hu

/-- Witness for C4's amended statement: export and import of agent 1 of
`c4St` at a later time (`now = 9`). -/
theorem c4_export_import_roundtrip_amended_witness :
    exportAgentConfig c4St 1 = .ok (.agentConfigDoc sampleAgentConfig) ∧
    (importAgentConfig c4St (some (.agentConfigDoc sampleAgentConfig)) 9).1 =
      .ok { sampleAgentConfig with id := 2, createdAt := 9, updatedAt := 9 } ∧
    mapGet (importAgentConfig c4St (some (.agentConfigDoc sampleAgentConfig)) 9).2.agents 2 =
      some { sampleAgentConfig with id := 2, createdAt := 9, updatedAt := 9 } ∧
    ({ { sampleAgentConfig with id := 2, createdAt := 9, updatedAt := 9 } with id := sampleAgentConfig.id, createdAt := sampleAgentConfig.createdAt, updatedAt := sampleAgentConfig.updatedAt } : AgentConfig) = sampleAgentConfig ∧
    ({ sampleAgentConfig with id := 2, createdAt := 9, updatedAt := 9 } : AgentConfig).id ≠ sampleAgentConfig.id ∧
    ({ sampleAgentConfig with id := 2, createdAt := 9, updatedAt := 9 } : AgentConfig).createdAt ≠ sampleAgentConfig.createdAt ∧
    ({ sampleAgentConfig with id := 2, createdAt := 9, updatedAt := 9 } : AgentConfig).updatedAt ≠ sampleAgentConfig.updatedAt :=
  c4_export_import_roundtrip_amended c4St 1 sampleAgentConfig 9 rfl rfl
    (by decide) (by decide) (by decide)

/-! ## C8 -/

/-- A wrapped export document around `sampleAgentConfig`. -/
def c8WrapDoc : JsonDoc :=
  .wrapperDoc (some "1.0") (some "cortex-agent-config") (some 9)
    (some (.agentConfigField sampleAgentConfig))

/-- C8 counterexample: a bare schema-valid agent-config document with no
wrapper (so without the `cortex-agent-config` type tag) is accepted and
stored by the manager-level import operation `AgentManager.importAgentConfig`
— the import surface does not reject every unwrapped document. -/
theorem c8_import_wrapper_counterexample :
    hasWrapperTag (some (.agentConfigDoc sampleAgentConfig)) = false ∧
    (importAgentConfig c4St (some (.agentConfigDoc sampleAgentConfig)) 9).1 =
      .ok { sampleAgentConfig with id := 2, createdAt := 9, updatedAt := 9 } ∧
    mapGet (importAgentConfig c4St (some (.agentConfigDoc sampleAgentConfig)) 9).2.agents 2 =
      some { sampleAgentConfig with id := 2, createdAt := 9, updatedAt := 9 } :=
  ⟨rfl, rfl, by decide⟩

/-- C8 amended: the storage-level import `AgentStorage.importAgentConfig`
rejects as malformed, storing nothing, every document that does not carry the
wrapper with the `cortex-agent-config` type tag and a config field, and
imports only documents with that tag whose config is schema-valid; the
manager-level import instead accepts a bare schema-valid config document
without any wrapper. -/
theorem c8_import_wrapper_amended :
    (∀ (st : ASState) (parsed : Option JsonDoc) (now freshId : Nat) (saveOk : Bool),
       hasWrapperTag parsed = false →
       ∃ e, storageImportAgentConfig st parsed now freshId saveOk = (.error e, st)) ∧
    (∀ (st : ASState) (parsed : Option JsonDoc) (now freshId : Nat) (saveOk : Bool)
       (cfgNew : AgentConfig) (st2 : ASState),
       storageImportAgentConfig st parsed now freshId saveOk = (.ok cfgNew, st2) →
       ∃ v ea inner,
         parsed = some (.wrapperDoc v (some "cortex-agent-config") ea
           (some (.agentConfigField inner))) ∧
         cfgNew = { inner with id := freshId, createdAt := now, updatedAt := now } ∧
         validateAgentConfig cfgNew = true ∧
         mapGet st2.stored cfgNew.id = some cfgNew) := by
  constructor
  · intro st parsed now freshId saveOk htag
    cases parsed with
    | none => exact ⟨_, rfl⟩
    | some doc =>
        cases doc with
        | agentConfigDoc c => exact ⟨_, rfl⟩
        | otherDoc => exact ⟨_, rfl⟩
        | wrapperDoc v ty ea cfgF =>
            cases cfgF with
            | none => exact ⟨_, rfl⟩
            | some cfgDoc =>
                have hne : ¬ ty = some "cortex-agent-config" := by
                  simpa [hasWrapperTag] using htag
                exact ⟨"Invalid agent config format",
                  by simp [storageImportAgentConfig, hne]⟩
  · intro st parsed now freshId saveOk cfgNew st2 hok
    cases parsed with
    | none => simp [storageImportAgentConfig] at hok
    | some doc =>
        cases doc with
        | agentConfigDoc c => simp [storageImportAgentConfig] at hok
        | otherDoc => simp [storageImportAgentConfig] at hok
        | wrapperDoc v ty ea cfgF =>
            cases cfgF with
            | none => simp [storageImportAgentConfig] at hok
            | some cfgDoc =>
                by_cases hty : ty = some "cortex-agent-config"
                · subst hty
                  cases cfgDoc with
                  | nonConfig => simp [storageImportAgentConfig] at hok
                  | agentConfigField inner =>
                      cases hval : validateAgentConfig { inner with id := freshId, createdAt := now, updatedAt := now } with
                      | false => simp [storageImportAgentConfig, hval] at hok
                      | true =>
                          cases hsave : saveOk with
                          | false => simp [storageImportAgentConfig, hval, hsave] at hok
                          | true =>
                              have hred : storageImportAgentConfig st
                                  (some (.wrapperDoc v (some "cortex-agent-config") ea
                                    (some (.agentConfigField inner)))) now freshId saveOk =
                                  (.ok { inner with id := freshId, createdAt := now, updatedAt := now },
                                   { stored := mapSet st.stored freshId { inner with id := freshId, createdAt := now, updatedAt := now } }) := by
                                simp [storageImportAgentConfig, hval, hsave]
                              rw [hred] at hok
                              have h1 : Except.ok (ε := String) { inner with id := freshId, createdAt := now, updatedAt := now } = .ok cfgNew :=
                                congrArg Prod.fst hok
                              have h2 : ({ stored := mapSet st.stored freshId { inner with id := freshId, createdAt := now, updatedAt := now } } : ASState) = st2 :=
                                congrArg Prod.snd hok
                              have h3 : ({ inner with id := freshId, createdAt := now, updatedAt := now } : AgentConfig) = cfgNew :=
                                Except.ok.inj h1
                              subst h3
                              subst h2
                              exact ⟨v, ea, inner, rfl, rfl, hval, mapGet_mapSet_self _ _ _⟩
                · simp [storageImportAgentConfig, hty] at hok

/-- Witness for C8's amended statement: the storage import rejects a
non-wrapper document, and accepts the wrapped export of
`sampleAgentConfig`. -/
theorem c8_import_wrapper_amended_witness :
    (∃ e, storageImportAgentConfig { stored := [] } (some .otherDoc) 9 7 true =
      (.error e, { stored := [] })) ∧
    (∃ v ea inner,
       (some c8WrapDoc : Option JsonDoc) = some (.wrapperDoc v (some "cortex-agent-config") ea
         (some (.agentConfigField inner))) ∧
       ({ sampleAgentConfig with id := 7, createdAt := 9, updatedAt := 9 } : AgentConfig) =
         { inner with id := 7, createdAt := 9, updatedAt := 9 } ∧
       validateAgentConfig { sampleAgentConfig with id := 7, createdAt := 9, updatedAt := 9 } = true ∧
       mapGet ({ stored := [(7, { sampleAgentConfig with id := 7, createdAt := 9, updatedAt := 9 })] } : ASState).stored
         ({ sampleAgentConfig with id := 7, createdAt := 9, updatedAt := 9 } : AgentConfig).id =
         some { sampleAgentConfig with id := 7, createdAt := 9, updatedAt := 9 }) :=
  ⟨c8_import_wrapper_amended.1 { stored := [] } (some .otherDoc) 9 7 true rfl,
   c8_import_wrapper_amended.2 { stored := [] } (some c8WrapDoc) 9 7 true
     { sampleAgentConfig with id := 7, createdAt := 9, updatedAt := 9 }
     { stored := [(7, { sampleAgentConfig with id := 7, createdAt := 9, updatedAt := 9 })] } rfl⟩

/-! ## C7 -/

/-- The source-side conversation builder agrees with the spec-side
projection. -/
theorem buildConversationInput_eq_specProjection (history : List HistoryItem) :
    buildConversationInput history = specMessageProjection history := by
  induction history with
  | nil => rfl
  | cons item rest ih =>
      cases item with
      | message m =>
          simpa [buildConversationInput, specMessageProjection,
            List.filterMap_cons] using ih
      | functionCall f =>
          simpa [buildConversationInput, specMessageProjection,
            List.filterMap_cons] using ih
      | functionCallResult r =>
          simpa [buildConversationInput, specMessageProjection,
            List.filterMap_cons] using ih
      | handoff hd =>
          simpa [buildConversationInput, specMessageProjection,
            List.filterMap_cons] using ih

/-- C7: the conversation input `sendMessage` hands to the runnable instance
is exactly the projection of all message-type history items, in history
order, of the complete history including the just-appended user message —
each mapped to role plus content, with non-string content serialized to a
JSON string, and function-call, function-call-result and handoff items
filtered out; never a truncated window. -/
theorem c7_conversation_projection :
    (∀ history, buildConversationInput history = specMessageProjection history) ∧
    (∀ (st : SMState) (sessionId : Nat) (content : String) (agentInst : AgentInstance)
       (runO : List ConvMessage → Except String RunResult) (saveOk : Bool)
       (now uid1 uid2 : Nat) (session : ChatSession),
       mapGet st.sessions sessionId = some session →
       (sendMessage st sessionId content (.ok agentInst) runO saveOk now uid1 uid2).convInput =
         some (specMessageProjection (session.history ++
           [.message { id := uid1, role := .user, content := .str content, timestamp := now, status := some .completed }]))) := by
  constructor
  · exact buildConversationInput_eq_specProjection
  · intro st sessionId content agentInst runO saveOk now uid1 uid2 session hsess
    simp only [sendMessage, hsess]
    split
    · simp [buildConversationInput_eq_specProjection]
    · split
      · simp [buildConversationInput_eq_specProjection]
      · simp [buildConversationInput_eq_specProjection]

/-- Witness for C7: a session whose history already holds a user and an
assistant message, with a mixed function-call item in between. -/
theorem c7_conversation_projection_witness :
    (sendMessage
      { sessions := [(3,
          { id := 3, agentId := 1, name := "chat", createdAt := 0, updatedAt := 0,
            history := [.message { id := 10, role := .user, content := .str "hi", timestamp := 1, status := some .completed },
              .functionCall { id := 11, name := "f", arguments := "", callId := "c1", status := .completed },
              .message { id := 12, role := .assistant, content := .str "hello", timestamp := 2, status := some .completed }],
            context := { totalTokens := 0, totalMessages := 2, totalFunctionCalls := 1, lastActivity := 2, lastAgentId := none },
            status := .active })],
        nextId := 4 }
      3 "again" (.ok sampleInstance) (fun _ => .ok { finalOutput := some "ok", history := [] }) true 5 20 21).convInput =
      some (specMessageProjection
        ([.message { id := 10, role := .user, content := .str "hi", timestamp := 1, status := some .completed },
          .functionCall { id := 11, name := "f", arguments := "", callId := "c1", status := .completed },
          .message { id := 12, role := .assistant, content := .str "hello", timestamp := 2, status := some .completed }] ++
         [.message { id := 20, role := .user, content := .str "again", timestamp := 5, status := some .completed }])) :=
  c7_conversation_projection.2 _ 3 "again" sampleInstance
    (fun _ => .ok { finalOutput := some "ok", history := [] }) true 5 20 21
    { id := 3, agentId := 1, name := "chat", createdAt := 0, updatedAt := 0,
      history := [.message { id := 10, role := .user, content := .str "hi", timestamp := 1, status := some .completed },
        .functionCall { id := 11, name := "f", arguments := "", callId := "c1", status := .completed },
        .message { id := 12, role := .assistant, content := .str "hello", timestamp := 2, status := some .completed }],
      context := { totalTokens := 0, totalMessages := 2, totalFunctionCalls := 1, lastActivity := 2, lastAgentId := none },
      status := .active }
    (by decide)

/-! ## C2 -/

/-- Preservation of the counter invariant by one `createSession` call, for
any environment outcomes. -/
theorem counterInv_createSession (st : SMState) (agentId : Nat) (name : String)
    (agentKnown : Bool) (now : Nat) (saveOk : Bool)
    (h : counterInv st = true) :
    counterInv (createSession st agentId name agentKnown now saveOk).2 = true := by
  cases hvn : validateSessionName name with
  | false => simpa [createSession, hvn] using h
  | true =>
      cases agentKnown with
      | false => simpa [createSession, hvn] using h
      | true =>
          cases saveOk with
          | false => simpa [createSession, hvn] using h
          | true =>
              have hpost : (createSession st agentId name true now true).2 =
                  { st with
                    sessions := mapSet st.sessions st.nextId
                      { id := st.nextId,
                        agentId := agentId,
                        name := name,
                        createdAt := now,
                        updatedAt := now,
                        history := [],
                        context := { totalTokens := 0, totalMessages := 0, totalFunctionCalls := 0, lastActivity := now, lastAgentId := none },
                        status := .active },
                    nextId := st.nextId + 1 } := by
                simp [createSession, hvn]
              rw [hpost]
              exact all_mapSet h (by simp [counterOk])

/-- Preservation of the counter invariant by one `sendMessage` call, for any
environment outcomes, including failing model invocations and failing
persistence. -/
theorem counterInv_sendMessage (st : SMState) (sessionId : Nat) (content : String)
    (agentRes : Except String AgentInstance)
    (runO : List ConvMessage → Except String RunResult)
    (saveOk : Bool) (now uid1 uid2 : Nat)
    (h : counterInv st = true) :
    counterInv (sendMessage st sessionId content agentRes runO saveOk now uid1 uid2).state = true := by
  cases hsess : mapGet st.sessions sessionId with
  | none => simpa [sendMessage, hsess] using h
  | some session =>
      cases agentRes with
      | error e => simpa [sendMessage, hsess] using h
      | ok agent =>
          have hsok : counterOk session = true := all_of_mapGet h hsess
          have h1 : counterOk
              { session with
                history := session.history ++
                  [.message { id := uid1, role := .user, content := .str content, timestamp := now, status := some .completed }],
                context :=
                  { session.context with
                    totalMessages := session.context.totalMessages + 1,
                    lastActivity := now },
                updatedAt := now } = true := by
            simp [counterOk, List.filter_append, isMessageItem] at hsok ⊢
            omega
          cases hrun : runO (buildConversationInput (session.history ++
              [.message { id := uid1, role := .user, content := .str content, timestamp := now, status := some .completed }])) with
          | error e =>
              have hpost : (sendMessage st sessionId content (.ok agent) runO saveOk now uid1 uid2).state =
                  { st with
                    sessions := mapSet st.sessions sessionId
                      { session with
                        history := session.history ++
                          [.message { id := uid1, role := .user, content := .str content, timestamp := now, status := some .completed }],
                        context :=
                          { session.context with
                            totalMessages := session.context.totalMessages + 1,
                            lastActivity := now },
                        updatedAt := now } } := by
                simp [sendMessage, hsess, hrun]
              rw [hpost]
              exact all_mapSet h h1
          | ok r =>
              have h2 : counterOk
                  { session with
                    history := (session.history ++
                      [.message { id := uid1, role := .user, content := .str content, timestamp := now, status := some .completed }]) ++
                      [.message { id := uid2, role := .assistant, content := .str (r.finalOutput.getD ""), timestamp := now, status := some .completed }],
                    context :=
                      { session.context with
                        totalMessages := session.context.totalMessages + 1 + 1,
                        totalFunctionCalls := session.context.totalFunctionCalls +
                          (r.history.filter (fun i => i.itemType == "function_call")).length,
                        lastActivity := now },
                    updatedAt := now } = true := by
                simp [counterOk, List.filter_append, isMessageItem] at hsok ⊢
                omega
              have hpost : (sendMessage st sessionId content (.ok agent) runO saveOk now uid1 uid2).state =
                  { st with
                    sessions := mapSet st.sessions sessionId
                      { session with
                        history := (session.history ++
                          [.message { id := uid1, role := .user, content := .str content, timestamp := now, status := some .completed }]) ++
                          [.message { id := uid2, role := .assistant, content := .str (r.finalOutput.getD ""), timestamp := now, status := some .completed }],
                        context :=
                          { session.context with
                            totalMessages := session.context.totalMessages + 1 + 1,
                            totalFunctionCalls := session.context.totalFunctionCalls +
                              (r.history.filter (fun i => i.itemType == "function_call")).length,
                            lastActivity := now },
                        updatedAt := now } } := by
                cases hsave : saveOk with
                | false => simp [sendMessage, hsess, hrun, hsave]
                | true => simp [sendMessage, hsess, hrun, hsave]
              rw [hpost]
              exact all_mapSet h h2

/-- C2: along every sequence of `createSession` and `sendMessage` calls —
whatever the outcomes of agent resolution, model invocation and persistence
— every stored session's `context.totalMessages` equals the number of
message-type items in its history after each call returns. -/
theorem c2_totalMessages_invariant (ops : List SMOp) (st0 : SMState)
    (h : counterInv st0 = true) :
    counterInv (ops.foldl applyOp st0) = true := by
  induction ops generalizing st0 with
  | nil => simpa using h
  | cons op rest ih =>
      rw [List.foldl_cons]
      cases op with
      | create agentId name agentKnown now saveOk =>
          exact ih _ (counterInv_createSession st0 agentId name agentKnown now saveOk h)
      | send sessionId content agentRes runO saveOk now uid1 uid2 =>
          exact ih _ (counterInv_sendMessage st0 sessionId content agentRes runO saveOk now uid1 uid2 h)

/-- Witness for C2: starting from an empty manager, create a session and send
one message answered by a stub run returning a final output, plus one send
whose persistence fails; the invariant holds at the end. -/
theorem c2_totalMessages_invariant_witness :
    counterInv
      ([SMOp.create 1 "chat" true 10 true,
        SMOp.send 0 "hi" (.ok sampleInstance)
          (fun _ => .ok { finalOutput := some "hello", history := [{ itemType := "function_call" }] }) true 11 100 101,
        SMOp.send 0 "again" (.ok sampleInstance)
          (fun _ => .ok { finalOutput := none, history := [] }) false 12 102 103].foldl
        applyOp { sessions := [], nextId := 0 }) = true :=
  c2_totalMessages_invariant _ { sessions := [], nextId := 0 } rfl

end Cortex
